import Mathlib

/-!
Verification model of FeReader (src/main.py), a PyQt5 PDF/EPUB viewer.

The reader state mirrors the fields initialised in FeReaderWindow.__init__
(main.py lines 29-34).  GUI calls (dialogs, message boxes, widget updates)
do not mutate those fields, so every operation is modelled as a pure
function of the state together with the inputs the GUI and the parsing
libraries supply:
  - the path chosen in the file dialog (empty string = dialog cancelled);
  - what PyPDF2 / ebooklib produce at that path (a LibraryWorld);
  - the integer returned by the go-to-page dialog (none = cancelled).
Third-party extraction (PdfReader, epub.read_epub, BeautifulSoup) is
delegated work and enters the model as its observable result: for a PDF the
per-page outcome of page.extract_text (none = it raised or returned None),
for an EPUB the clean_html string of each document item.
-/

/-- Python whitespace test, restricted to the ASCII whitespace characters
(the model keeps the ASCII fragment of Python's Unicode whitespace set). -/
def isPySpace (c : Char) : Bool :=
  c == ' ' || c == '\t' || c == '\n' || c == '\r' || c == '\x0b' || c == '\x0c'

/-- Python str.strip(): remove leading and trailing whitespace. -/
def pyStrip (s : String) : String :=
  ⟨((s.toList.dropWhile isPySpace).reverse.dropWhile isPySpace).reverse⟩

/-- Index of the last occurrence of a character, if any. -/
def lastIndexOf (cs : List Char) (c : Char) : Option Nat :=
  cs.enum.foldl (fun acc p => if p.2 == c then some p.1 else acc) none

/-- os.path.splitext (posix rules): split off the extension at the last dot
of the last path component, unless every character of that component before
this dot is itself a dot (hidden files such as ".bashrc" have no
extension). -/
def splitext (p : String) : String × String :=
  let cs := p.toList
  let sepIdx : Int := match lastIndexOf cs '/' with | some n => (n : Int) | none => -1
  let dotIdx : Int := match lastIndexOf cs '.' with | some n => (n : Int) | none => -1
  if sepIdx < dotIdx then
    let nameStart := (sepIdx + 1).toNat
    let d := dotIdx.toNat
    if (List.range (d - nameStart)).any (fun k => cs.get? (nameStart + k) != some '.') then
      (⟨cs.take d⟩, ⟨cs.drop d⟩)
    else (p, "")
  else (p, "")

/-- Python str.lower restricted to ASCII letters (extensions compared by
open_file are ASCII). -/
def pyLower (s : String) : String :=
  ⟨s.toList.map Char.toLower⟩

/-- os.path.basename (posix rules): the part after the last '/'. -/
def basename (p : String) : String :=
  match lastIndexOf p.toList '/' with
  | some n => ⟨p.toList.drop (n + 1)⟩
  | none => p

/-- The mutable reader fields of FeReaderWindow (main.py lines 29-34). -/
structure ReaderState where
  current_book_type : Option String
  current_book_path : Option String
  current_book_title : String
  pages : List String
  current_index : Int
  current_font_size : Int
deriving Repr, DecidableEq

/-- The state established by FeReaderWindow.__init__. -/
def initState : ReaderState :=
  { current_book_type := none
    current_book_path := none
    current_book_title := "Untitled"
    pages := []
    current_index := 0
    current_font_size := 12 }

/-- What the parsing libraries produce for the chosen path.  An error value
means the library constructor call (PdfReader / epub.read_epub) raises,
carrying the exception message. -/
structure LibraryWorld where
  pdfDoc : Except String (List (Option String))
  epubDoc : Except String (List String)

/-- One loop body of load_pdf (main.py 150-155): text is
page.extract_text() or "" with any exception caught to "" by the per-page
try, and the stored unit is the text when its strip is non-empty, else the
placeholder. -/
def pdfPageUnit (extracted : Option String) : String :=
  let text := extracted.getD ""
  if pyStrip text = "" then "[Empty page]" else text

/-- load_pdf (main.py 145-155).  The method first sets current_book_type
and clears pages, then constructs the PdfReader; when that raises, the
exception propagates while the already-mutated state remains. -/
def load_pdf (doc : Except String (List (Option String))) (s : ReaderState) :
    Except (String × ReaderState) ReaderState :=
  let s1 := { s with current_book_type := some "pdf", pages := [] }
  match doc with
  | .error e => .error (e, s1)
  | .ok pageTexts => .ok { s1 with pages := pageTexts.map pdfPageUnit }

/-- The pages list load_epub ends with: one prettified html string per
document item, with a placeholder substituted when there were none
(main.py 173-174). -/
def epubPages (cleanHtmls : List String) : List String :=
  if cleanHtmls.isEmpty then ["<h3>No readable content found.</h3>"] else cleanHtmls

/-- load_epub (main.py 157-174), with a raise from read_epub propagating
the already-mutated state exactly as in load_pdf. -/
def load_epub (doc : Except String (List String)) (s : ReaderState) :
    Except (String × ReaderState) ReaderState :=
  let s1 := { s with current_book_type := some "epub", pages := [] }
  match doc with
  | .error e => .error (e, s1)
  | .ok cleanHtmls => .ok { s1 with pages := epubPages cleanHtmls }

/-- The user-visible outcome of one open_file invocation: which dialog box,
if any, was shown. -/
inductive OpenOutcome where
  | cancelled
  | unsupportedWarning (title msg : String)
  | errorShown (title msg : String)
  | loaded
deriving Repr, DecidableEq

/-- The name filter handed to QFileDialog.getOpenFileName (main.py 120). -/
def dialog_filter : String :=
  "Documents (*.pdf *.epub);;PDF Files (*.pdf);;EPUB Files (*.epub);;All Files (*.*)"

/-- Lines 136-143 of open_file: the except branch shows the critical error
box and keeps whatever state the failed loader left behind; the
fall-through records path and title and resets the cursor to 0 on the state
the loader produced. -/
def finishOrError (path : String) :
    Except (String × ReaderState) ReaderState → ReaderState × OpenOutcome
  | .error (e, s1) => (s1, .errorShown "Error" ("Failed to open file:\n" ++ e))
  | .ok s1 =>
      ({ s1 with current_book_path := some path
                 current_book_title := basename path
                 current_index := 0 }, .loaded)

/-- open_file (main.py 119-143): an empty path means the dialog was
cancelled; otherwise dispatch on the lowercased extension, warning and
returning on unsupported extensions. -/
def open_file (path : String) (w : LibraryWorld) (s : ReaderState) :
    ReaderState × OpenOutcome :=
  if path = "" then (s, .cancelled)
  else if pyLower (splitext path).2 = ".pdf" then
    finishOrError path (load_pdf w.pdfDoc s)
  else if pyLower (splitext path).2 = ".epub" then
    finishOrError path (load_epub w.epubDoc s)
  else (s, .unsupportedWarning "Unsupported file" "Only PDF and EPUB are supported.")

/-- Python list indexing: non-negative indices from the front, negative
indices from the end, anything else raises IndexError (none). -/
def pyGet (l : List String) (i : Int) : Option String :=
  if 0 ≤ i then l.get? i.toNat
  else if 0 ≤ i + l.length then l.get? (i + l.length).toNat
  else none

/-- What _update_view hands to the text widget. -/
inductive ViewContent where
  | plainText (text : String)
  | htmlContent (html : String)
deriving Repr, DecidableEq

/-- The content part of _update_view (main.py 178-186); the error value
marks the IndexError that pages[current_index] would raise.  The font and
status-bar updates do not touch the reader fields. -/
def updateViewDisplay (s : ReaderState) : Except Unit ViewContent :=
  if s.pages.isEmpty then .ok (.plainText "No document loaded.")
  else
    match pyGet s.pages s.current_index with
    | none => .error ()
    | some content =>
        if s.current_book_type = some "epub" then .ok (.htmlContent content)
        else .ok (.plainText content)

/-- go_prev (main.py 194-199); _update_view does not change the fields. -/
def go_prev (s : ReaderState) : ReaderState :=
  if s.pages.isEmpty then s
  else if 0 < s.current_index then { s with current_index := s.current_index - 1 }
  else s

/-- go_next (main.py 201-206). -/
def go_next (s : ReaderState) : ReaderState :=
  if s.pages.isEmpty then s
  else if s.current_index < (s.pages.length : Int) - 1 then
    { s with current_index := s.current_index + 1 }
  else s

/-- go_to_page_dialog (main.py 208-225); req is the dialog result (none =
cancelled).  QInputDialog.getInt confines the returned integer to the range
[min, max] = [1, len(pages)] of its spin box, modelled by the clamp. -/
def go_to_page_dialog (req : Option Int) (s : ReaderState) : ReaderState :=
  if s.pages.isEmpty then s
  else
    match req with
    | none => s
    | some v =>
        let value := max 1 (min v (s.pages.length : Int))
        { s with current_index := value - 1 }

/-- zoom_in (main.py 229-233). -/
def zoom_in (s : ReaderState) : ReaderState :=
  let f := s.current_font_size + 1
  { s with current_font_size := if 40 < f then 40 else f }

/-- zoom_out (main.py 235-239). -/
def zoom_out (s : ReaderState) : ReaderState :=
  let f := s.current_font_size - 1
  { s with current_font_size := if f < 8 then 8 else f }

/-- Split a character list at every occurrence of a separator. -/
def splitChar (sep : Char) : List Char → List (List Char)
  | [] => [[]]
  | c :: cs =>
    match splitChar sep cs with
    | [] => if c == sep then [[], []] else [[c]]
    | h :: t => if c == sep then [] :: h :: t else (c :: h) :: t

/-- The substring between the first '(' and the following ')'. -/
def parenContents (cs : List Char) : List Char :=
  ((cs.dropWhile (fun c => c != '(')).drop 1).takeWhile (fun c => c != ')')

/-- The glob patterns a Qt name filter offers: each ";;"-separated entry
contributes the space-separated patterns inside its parentheses. -/
def filterPatterns (filter : String) : List String :=
  ((((splitChar ';' filter.toList).filter (fun e => !e.isEmpty)).map
    (fun entry =>
      ((splitChar ' ' (parenContents entry)).filter (fun p => !p.isEmpty)).map
        (fun p : List Char => (⟨p⟩ : String)))).flatten)

/-- One glob pattern against one file name, as Qt name filters interpret
them: every '*' matches an arbitrary run of characters, every other
character matches itself. -/
def globMatch : List Char → List Char → Bool
  | [], t => t.isEmpty
  | c :: ps, t =>
    if c == '*' then t.tails.any (fun suf => globMatch ps suf)
    else
      match t with
      | [] => false
      | d :: ds => c == d && globMatch ps ds

/-- The cursor bound stated by the spec: current_index lies in
[0, len(pages) - 1]. -/
def cursorInBounds (s : ReaderState) : Prop :=
  0 ≤ s.current_index ∧ s.current_index ≤ (s.pages.length : Int) - 1

instance (s : ReaderState) : Decidable (cursorInBounds s) := by
  unfold cursorInBounds; exact inferInstance

/-- Font size within [8, 40]. -/
def fontInBounds (s : ReaderState) : Prop :=
  8 ≤ s.current_font_size ∧ s.current_font_size ≤ 40

instance (s : ReaderState) : Decidable (fontInBounds s) := by
  unfold fontInBounds; exact inferInstance

/-- A state as left by a successful one-page EPUB load, used as a concrete
starting point. -/
def sampleLoadedState : ReaderState :=
  { current_book_type := some "epub"
    current_book_path := some "/books/old.epub"
    current_book_title := "old.epub"
    pages := ["<p>old</p>"]
    current_index := 0
    current_font_size := 12 }

/-- A library world in which constructing the PdfReader raises. -/
def failingPdfWorld : LibraryWorld :=
  { pdfDoc := .error "bad pdf", epubDoc := .ok ["<p>x</p>"] }

/-- A library world whose PDF parses but reports no pages at all. -/
def emptyPdfWorld : LibraryWorld :=
  { pdfDoc := .ok [], epubDoc := .ok [] }

/-- The state left behind when opening a PDF whose PdfReader raises, on top
of sampleLoadedState. -/
def failedOpenState : ReaderState :=
  { sampleLoadedState with current_book_type := some "pdf", pages := [] }

/-- Case analysis of one open_file invocation: cancelled and unsupported
leave the state untouched; an extractor exception keeps cursor, path, title
and font but has already cleared pages and retargeted the book type; a
completed load resets the cursor and installs the extracted units. -/
theorem open_file_inv (path : String) (w : LibraryWorld) (s r : ReaderState) (o : OpenOutcome)
    (h : open_file path w s = (r, o)) :
    (r = s ∧ (o = .cancelled ∨ ∃ t m, o = .unsupportedWarning t m)) ∨
    ((∃ t m, o = .errorShown t m) ∧ r.pages = [] ∧
       r.current_index = s.current_index ∧ r.current_book_path = s.current_book_path ∧
       r.current_book_title = s.current_book_title ∧
       r.current_font_size = s.current_font_size ∧
       (r.current_book_type = some "pdf" ∨ r.current_book_type = some "epub")) ∨
    (o = .loaded ∧ r.current_index = 0 ∧ r.current_book_path = some path ∧
       r.current_book_title = basename path ∧ r.current_font_size = s.current_font_size ∧
       ((∃ l, w.pdfDoc = .ok l ∧ r.pages = l.map pdfPageUnit ∧
           r.current_book_type = some "pdf") ∨
        (∃ l, w.epubDoc = .ok l ∧ r.pages = epubPages l ∧
           r.current_book_type = some "epub"))) := by
  by_cases hp : path = ""
  · simp only [open_file, hp, if_pos] at h
    obtain ⟨rfl, rfl⟩ := Prod.mk.injEq .. ▸ h
    exact Or.inl ⟨rfl, Or.inl rfl⟩
  · by_cases h1 : pyLower (splitext path).2 = ".pdf"
    · cases hd : w.pdfDoc with
      | error e =>
          simp only [open_file, hp, h1, if_neg, if_pos, if_false, if_true,
            load_pdf, hd, finishOrError] at h
          obtain ⟨rfl, rfl⟩ := Prod.mk.injEq .. ▸ h
          exact Or.inr (Or.inl ⟨⟨_, _, rfl⟩, rfl, rfl, rfl, rfl, rfl, Or.inl rfl⟩)
      | ok l =>
          simp only [open_file, hp, h1, if_neg, if_pos, if_false, if_true,
            load_pdf, hd, finishOrError] at h
          obtain ⟨rfl, rfl⟩ := Prod.mk.injEq .. ▸ h
          exact Or.inr (Or.inr ⟨rfl, rfl, rfl, rfl, rfl, Or.inl ⟨l, rfl, rfl, rfl⟩⟩)
    · by_cases h2 : pyLower (splitext path).2 = ".epub"
      · cases hd : w.epubDoc with
        | error e =>
            simp only [open_file, hp, h1, h2, if_neg, if_pos, if_false, if_true,
              load_epub, hd, finishOrError] at h
            obtain ⟨rfl, rfl⟩ := Prod.mk.injEq .. ▸ h
            exact Or.inr (Or.inl ⟨⟨_, _, rfl⟩, rfl, rfl, rfl, rfl, rfl, Or.inr rfl⟩)
        | ok l =>
            simp only [open_file, hp, h1, h2, if_neg, if_pos, if_false, if_true,
              load_epub, hd, finishOrError] at h
            obtain ⟨rfl, rfl⟩ := Prod.mk.injEq .. ▸ h
            exact Or.inr (Or.inr ⟨rfl, rfl, rfl, rfl, rfl, Or.inr ⟨l, rfl, rfl, rfl⟩⟩)
      · simp only [open_file, hp, h1, h2, if_neg, if_false] at h
        obtain ⟨rfl, rfl⟩ := Prod.mk.injEq .. ▸ h
        exact Or.inl ⟨rfl, Or.inr ⟨_, _, rfl⟩⟩

/-- C1 counterexample: when PdfReader raises during open_file, the error
box is shown but the state is not left unchanged: pages and
current_book_type have already been overwritten by load_pdf before the
exception escaped. -/
theorem open_file_extractor_failure_changes_state :
    (open_file "/books/new.pdf" failingPdfWorld sampleLoadedState).2 =
      OpenOutcome.errorShown "Error" "Failed to open file:\nbad pdf" ∧
    (open_file "/books/new.pdf" failingPdfWorld sampleLoadedState).1.pages ≠
      sampleLoadedState.pages ∧
    (open_file "/books/new.pdf" failingPdfWorld sampleLoadedState).1.current_book_type ≠
      sampleLoadedState.current_book_type := by
  refine ⟨by decide, by decide, by decide⟩

/-- C1 amended: when the extractor raises inside open_file, an error
message is shown and current_index, current_book_path, current_book_title
and current_font_size are unchanged, but pages has been cleared and
current_book_type set to the attempted format. -/
theorem open_file_extractor_failure_effect
    (path : String) (w : LibraryWorld) (s r : ReaderState) (t m : String)
    (h : open_file path w s = (r, .errorShown t m)) :
    r.current_index = s.current_index ∧
    r.current_book_path = s.current_book_path ∧
    r.current_book_title = s.current_book_title ∧
    r.current_font_size = s.current_font_size ∧
    r.pages = [] ∧
    (r.current_book_type = some "pdf" ∨ r.current_book_type = some "epub") := by
  rcases open_file_inv path w s r _ h with
    ⟨rfl, ho | ⟨t', m', ho⟩⟩ | ⟨-, hpg, hi, hpa, hti, hf, hty⟩ | ⟨ho, -⟩
  · exact absurd ho (by simp)
  · exact absurd ho (by simp)
  · exact ⟨hi, hpa, hti, hf, hpg, hty⟩
  · exact absurd ho (by simp)

/-- C1 witness: the amended statement evaluated on the concrete failing
open. -/
theorem open_file_extractor_failure_effect_w :
    failedOpenState.current_index = sampleLoadedState.current_index ∧
    failedOpenState.current_book_path = sampleLoadedState.current_book_path ∧
    failedOpenState.current_book_title = sampleLoadedState.current_book_title ∧
    failedOpenState.current_font_size = sampleLoadedState.current_font_size ∧
    failedOpenState.pages = [] ∧
    (failedOpenState.current_book_type = some "pdf" ∨
      failedOpenState.current_book_type = some "epub") :=
  open_file_extractor_failure_effect "/books/new.pdf" failingPdfWorld sampleLoadedState
    failedOpenState "Error" "Failed to open file:\nbad pdf" (by decide)

/-- C2 counterexample: a PDF that parses but reports zero pages loads
without any exception, yet pages ends up empty: load_pdf substitutes no
placeholder. -/
theorem zero_page_pdf_load_leaves_pages_empty :
    (open_file "/books/empty.pdf" emptyPdfWorld sampleLoadedState).2 = OpenOutcome.loaded ∧
    (open_file "/books/empty.pdf" emptyPdfWorld sampleLoadedState).1.pages = [] := by
  refine ⟨by decide, by decide⟩

/-- C2 amended: after a load that completes without an exception, pages is
non-empty for EPUB, where a placeholder is substituted when there are no
document items; for PDF, pages carries exactly one unit per page of the
reader, so it is empty exactly when the PDF reports zero pages. -/
theorem load_success_pages_amended :
    (∀ doc s r, load_epub doc s = .ok r → r.pages ≠ []) ∧
    (∀ l s r, load_pdf (.ok l) s = .ok r →
      (r.pages.length = l.length ∧ (r.pages = [] ↔ l = []))) := by
  constructor
  · intro doc s r h
    cases doc with
    | error e => exact absurd h (by simp [load_epub])
    | ok items =>
        simp only [load_epub] at h
        obtain rfl := (Except.ok.injEq .. ▸ h).symm
        cases hip : items.isEmpty with
        | true => simp [epubPages, hip]
        | false =>
            simp only [epubPages, hip, Bool.false_eq_true, if_false]
            exact fun hc => by simp [hc] at hip
  · intro l s r h
    simp only [load_pdf] at h
    obtain rfl := (Except.ok.injEq .. ▸ h).symm
    simp [List.map_eq_nil_iff]

/-- C2 witness: an EPUB with no document items still yields a non-empty
pages list. -/
theorem load_success_pages_amended_w :
    ({ initState with
        current_book_type := some "epub"
        pages := epubPages [] } : ReaderState).pages ≠ [] :=
  load_success_pages_amended.1 (.ok []) initState _ rfl

/-- A library world whose PDF yields two pages, the second with no
extractable text. -/
def okPdfWorld : LibraryWorld :=
  { pdfDoc := .ok [some "hello", none], epubDoc := .ok [] }

/-- The state produced by opening /books/new.pdf in okPdfWorld. -/
def loadedPdfState : ReaderState :=
  { current_book_type := some "pdf"
    current_book_path := some "/books/new.pdf"
    current_book_title := "new.pdf"
    pages := ["hello", "[Empty page]"]
    current_index := 0
    current_font_size := 12 }

/-- C5: every open_file invocation whose extractor completes without an
exception ends with current_index equal to 0 and pages replaced wholesale
by the units extracted from the chosen document. -/
theorem open_file_success_resets_cursor
    (path : String) (w : LibraryWorld) (s r : ReaderState)
    (h : open_file path w s = (r, .loaded)) :
    r.current_index = 0 ∧
    ((∃ l, w.pdfDoc = .ok l ∧ r.pages = l.map pdfPageUnit) ∨
     (∃ l, w.epubDoc = .ok l ∧ r.pages = epubPages l)) := by
  rcases open_file_inv path w s r _ h with
    ⟨rfl, ho | ⟨t', m', ho⟩⟩ | ⟨⟨t', m', ho⟩, -⟩ | ⟨-, hi, -, -, -, hload⟩
  · exact absurd ho (by simp)
  · exact absurd ho (by simp)
  · exact absurd ho (by simp)
  · refine ⟨hi, ?_⟩
    rcases hload with ⟨l, hw, hp, -⟩ | ⟨l, hw, hp, -⟩
    · exact Or.inl ⟨l, hw, hp⟩
    · exact Or.inr ⟨l, hw, hp⟩

/-- C5 witness: a concrete successful PDF open. -/
theorem open_file_success_resets_cursor_w :
    loadedPdfState.current_index = 0 ∧
    ((∃ l, okPdfWorld.pdfDoc = .ok l ∧ loadedPdfState.pages = l.map pdfPageUnit) ∨
     (∃ l, okPdfWorld.epubDoc = .ok l ∧ loadedPdfState.pages = epubPages l)) :=
  open_file_success_resets_cursor "/books/new.pdf" okPdfWorld sampleLoadedState
    loadedPdfState (by decide)

/-- C6: selecting a file whose lowercased extension is neither .pdf nor
.epub shows the unsupported-file warning and leaves the whole state
unchanged. -/
theorem open_file_unsupported_no_change
    (path : String) (w : LibraryWorld) (s : ReaderState)
    (hp : path ≠ "") (h1 : pyLower (splitext path).2 ≠ ".pdf")
    (h2 : pyLower (splitext path).2 ≠ ".epub") :
    open_file path w s =
      (s, .unsupportedWarning "Unsupported file" "Only PDF and EPUB are supported.") := by
  simp [open_file, hp, h1, h2]

/-- C6 witness: opening notes.txt. -/
theorem open_file_unsupported_no_change_w :
    open_file "notes.txt" failingPdfWorld sampleLoadedState =
      (sampleLoadedState,
        .unsupportedWarning "Unsupported file" "Only PDF and EPUB are supported.") :=
  open_file_unsupported_no_change "notes.txt" failingPdfWorld sampleLoadedState
    (by decide) (by decide) (by decide)

/-- C7: zoom_in and zoom_out change only current_font_size; pages, cursor,
book type, path and title are untouched by either. -/
theorem zoom_only_changes_font (s : ReaderState) :
    (zoom_in s).pages = s.pages ∧ (zoom_in s).current_index = s.current_index ∧
    (zoom_in s).current_book_type = s.current_book_type ∧
    (zoom_in s).current_book_path = s.current_book_path ∧
    (zoom_in s).current_book_title = s.current_book_title ∧
    (zoom_out s).pages = s.pages ∧ (zoom_out s).current_index = s.current_index ∧
    (zoom_out s).current_book_type = s.current_book_type ∧
    (zoom_out s).current_book_path = s.current_book_path ∧
    (zoom_out s).current_book_title = s.current_book_title :=
  ⟨rfl, rfl, rfl, rfl, rfl, rfl, rfl, rfl, rfl, rfl⟩

/-- No operation other than zoom_in and zoom_out writes current_font_size. -/
lemma open_file_preserves_font (path : String) (w : LibraryWorld) (s : ReaderState) :
    ((open_file path w s).1).current_font_size = s.current_font_size := by
  rcases hro : open_file path w s with ⟨r, o⟩
  rcases open_file_inv path w s r o hro with
    ⟨he, -⟩ | ⟨-, -, -, -, -, hf, -⟩ | ⟨-, -, -, -, hf, -⟩
  · rw [he]
  · exact hf
  · exact hf

/-- C4: starting inside [8, 40] the font size stays inside [8, 40] under
every operation; zoom_in adds 1 clamping at 40, zoom_out subtracts 1
clamping at 8, and no other operation writes the font size. -/
theorem font_size_clamped (s : ReaderState) (h : fontInBounds s) :
    fontInBounds initState ∧
    fontInBounds (zoom_in s) ∧ fontInBounds (zoom_out s) ∧
    (zoom_in s).current_font_size = min (s.current_font_size + 1) 40 ∧
    (zoom_out s).current_font_size = max (s.current_font_size - 1) 8 ∧
    (go_prev s).current_font_size = s.current_font_size ∧
    (go_next s).current_font_size = s.current_font_size ∧
    (∀ req, (go_to_page_dialog req s).current_font_size = s.current_font_size) ∧
    (∀ path w, ((open_file path w s).1).current_font_size = s.current_font_size) := by
  obtain ⟨h1, h2⟩ := h
  refine ⟨by decide, ?_, ?_, ?_, ?_, ?_, ?_, ?_, ?_⟩
  · simp only [fontInBounds, zoom_in]
    split <;> omega
  · simp only [fontInBounds, zoom_out]
    split <;> omega
  · simp only [zoom_in]
    split <;> omega
  · simp only [zoom_out]
    split <;> omega
  · unfold go_prev
    split
    · rfl
    · split <;> rfl
  · unfold go_next
    split
    · rfl
    · split <;> rfl
  · intro req
    unfold go_to_page_dialog
    split
    · rfl
    · cases req <;> rfl
  · intro path w
    exact open_file_preserves_font path w s

/-- C4 witness: zooming in from the initial state stays in bounds. -/
theorem font_size_clamped_w :
    fontInBounds (zoom_in initState) :=
  (font_size_clamped initState (by decide)).2.1

/-- C3 counterexample: from a state satisfying the cursor bound, an
open_file whose PdfReader raises empties pages while keeping the old
cursor, so the bound [0, len(pages)-1] no longer holds afterwards. -/
theorem cursor_bound_broken_by_failed_open :
    cursorInBounds sampleLoadedState ∧
    (open_file "/books/new.pdf" failingPdfWorld sampleLoadedState).2 =
      OpenOutcome.errorShown "Error" "Failed to open file:\nbad pdf" ∧
    ¬ cursorInBounds (open_file "/books/new.pdf" failingPdfWorld sampleLoadedState).1 := by
  refine ⟨by decide, by decide, by decide⟩

/-- C3 amended: the bound current_index in [0, len(pages)-1] is preserved
by go_prev, go_next, go_to_page_dialog, zoom_in and zoom_out, and by
open_file whenever it is cancelled, rejects the extension, or completes a
load that yields at least one unit; an open_file whose extractor raises, or
whose PDF yields no pages, can leave the bound broken. -/
theorem cursor_bounds_preserved (s : ReaderState) (hs : cursorInBounds s) :
    cursorInBounds (go_prev s) ∧ cursorInBounds (go_next s) ∧
    (∀ req, cursorInBounds (go_to_page_dialog req s)) ∧
    cursorInBounds (zoom_in s) ∧ cursorInBounds (zoom_out s) ∧
    (∀ path w r o, open_file path w s = (r, o) →
      (o = .cancelled ∨ (∃ t m, o = .unsupportedWarning t m) ∨
        (o = .loaded ∧ r.pages ≠ [])) →
      cursorInBounds r) := by
  obtain ⟨h1, h2⟩ := hs
  refine ⟨?_, ?_, ?_, ?_, ?_, ?_⟩
  · simp only [cursorInBounds, go_prev]
    split
    · exact ⟨h1, h2⟩
    · split <;> (try dsimp only) <;> omega
  · simp only [cursorInBounds, go_next]
    split
    · exact ⟨h1, h2⟩
    · split <;> (try dsimp only) <;> omega
  · intro req
    simp only [cursorInBounds, go_to_page_dialog]
    split
    · exact ⟨h1, h2⟩
    · cases req with
      | none => exact ⟨h1, h2⟩
      | some v =>
          rename_i hne
          have hlen : s.pages ≠ [] := by
            intro hc; simp [hc] at hne
          have hpos : 0 < s.pages.length := List.length_pos.mpr hlen
          dsimp only
          constructor <;> omega
  · exact ⟨h1, h2⟩
  · exact ⟨h1, h2⟩
  · intro path w r o hof hcase
    rcases open_file_inv path w s r o hof with
      ⟨rfl, -⟩ | ⟨⟨t, m, rfl⟩, -⟩ | ⟨rfl, hi, -, -, -, -⟩
    · exact ⟨h1, h2⟩
    · rcases hcase with hc | ⟨t', m', hc⟩ | ⟨hc, -⟩ <;> simp at hc
    · rcases hcase with hc | ⟨t', m', hc⟩ | ⟨-, hne⟩
      · simp at hc
      · simp at hc
      · have hpos : 0 < r.pages.length := List.length_pos.mpr hne
        exact ⟨by omega, by omega⟩

/-- C3 witness: go_prev from a concrete in-bounds state. -/
theorem cursor_bounds_preserved_w :
    cursorInBounds (go_prev sampleLoadedState) :=
  (cursor_bounds_preserved sampleLoadedState (by decide)).1

/-- C9: every unit a completed load_pdf stores is the extracted text when
that text has non-whitespace content, and the placeholder "[Empty page]"
when extraction raised, returned None, or returned a whitespace-only
string; in particular no stored unit is empty or whitespace-only. -/
theorem load_pdf_units_text_or_placeholder
    (l : List (Option String)) (s r : ReaderState)
    (h : load_pdf (.ok l) s = .ok r) :
    r.pages = l.map pdfPageUnit ∧
    (∀ t : Option String, pyStrip (t.getD "") = "" → pdfPageUnit t = "[Empty page]") ∧
    (∀ t : Option String, pyStrip (t.getD "") ≠ "" → pdfPageUnit t = t.getD "") ∧
    (∀ u ∈ r.pages, pyStrip u ≠ "") := by
  simp only [load_pdf] at h
  obtain rfl := (Except.ok.injEq .. ▸ h).symm
  refine ⟨rfl, ?_, ?_, ?_⟩
  · intro t ht
    simp [pdfPageUnit, ht]
  · intro t ht
    simp [pdfPageUnit, ht]
  · intro u hu
    obtain ⟨t, -, rfl⟩ := List.mem_map.mp hu
    unfold pdfPageUnit
    dsimp only
    split
    · decide
    · assumption

/-- C9 witness: a page whose extraction failed stores the placeholder. -/
theorem load_pdf_units_text_or_placeholder_w :
    pdfPageUnit none = "[Empty page]" :=
  (load_pdf_units_text_or_placeholder [none] initState
    { initState with
        current_book_type := some "pdf"
        pages := [none].map pdfPageUnit } rfl).2.1 none (by decide)

/-- C10: with pages empty, go_prev, go_next and go_to_page_dialog return
the state unchanged, and _update_view shows the fixed no-document text
without ever indexing into pages. -/
theorem empty_pages_noop_and_no_indexing (s : ReaderState) (h : s.pages = []) :
    go_prev s = s ∧ go_next s = s ∧ (∀ req, go_to_page_dialog req s = s) ∧
    updateViewDisplay s = .ok (.plainText "No document loaded.") := by
  refine ⟨?_, ?_, ?_, ?_⟩ <;>
    simp [go_prev, go_next, go_to_page_dialog, updateViewDisplay, h]

/-- C10 witness: the freshly started reader. -/
theorem empty_pages_noop_and_no_indexing_w :
    go_prev initState = initState :=
  (empty_pages_noop_and_no_indexing initState rfl).1

/-- Matching a pattern that starts with a star means matching its tail
against some suffix of the name. -/
lemma globMatch_star (ps t : List Char) :
    globMatch ('*' :: ps) t = true ↔
      ∃ suf, List.IsSuffix suf t ∧ globMatch ps suf = true := by
  simp [globMatch, List.any_eq_true, List.mem_tails]

/-- A star-free pattern matches exactly itself. -/
lemma globMatch_no_star (ps : List Char) (h : '*' ∉ ps) :
    ∀ t, globMatch ps t = true ↔ t = ps := by
  induction ps with
  | nil => intro t; cases t <;> simp [globMatch]
  | cons c cs ih =>
      intro t
      have hcf : (c == '*') = false := by
        simp only [beq_eq_false_iff_ne, ne_eq]
        exact fun hcc => h (hcc ▸ List.mem_cons_self c cs)
      have hcs : '*' ∉ cs := fun hm => h (List.mem_cons_of_mem c hm)
      cases t with
      | nil => simp [globMatch, hcf]
      | cons d ds =>
          simp only [globMatch, hcf, Bool.false_eq_true, if_false,
            Bool.and_eq_true, beq_iff_eq, ih hcs ds, List.cons.injEq]
          constructor
          · rintro ⟨h1, h2⟩
            exact ⟨h1.symm, h2⟩
          · rintro ⟨h1, h2⟩
            exact ⟨h1.symm, h2⟩

/-- The patterns the dialog filter string of open_file offers. -/
lemma filterPatterns_dialog :
    filterPatterns dialog_filter = ["*.pdf", "*.epub", "*.pdf", "*.epub", "*.*"] := by
  decide

/-- C8 amended: every pattern the open_file dialog filter offers except the
"All Files" entry "*.*" matches only names ending in ".pdf" or ".epub";
the "*.*" entry itself admits other files. -/
theorem dialog_patterns_restrict (p name : String)
    (hp : p ∈ filterPatterns dialog_filter) (hne : p ≠ "*.*")
    (hm : globMatch p.toList name.toList = true) :
    List.IsSuffix ".pdf".toList name.toList ∨
    List.IsSuffix ".epub".toList name.toList := by
  rw [filterPatterns_dialog] at hp
  have hpdf : globMatch "*.pdf".toList name.toList = true →
      List.IsSuffix ".pdf".toList name.toList := by
    intro hm1
    have he : ("*.pdf".toList) = '*' :: ".pdf".toList := rfl
    rw [he] at hm1
    obtain ⟨suf, hsuf, hg⟩ := (globMatch_star _ _).mp hm1
    obtain rfl := (globMatch_no_star _ (by decide) suf).mp hg
    exact hsuf
  have hepub : globMatch "*.epub".toList name.toList = true →
      List.IsSuffix ".epub".toList name.toList := by
    intro hm1
    have he : ("*.epub".toList) = '*' :: ".epub".toList := rfl
    rw [he] at hm1
    obtain ⟨suf, hsuf, hg⟩ := (globMatch_star _ _).mp hm1
    obtain rfl := (globMatch_no_star _ (by decide) suf).mp hg
    exact hsuf
  simp only [List.mem_cons, List.not_mem_nil, or_false] at hp
  rcases hp with rfl | rfl | rfl | rfl | rfl
  · exact Or.inl (hpdf hm)
  · exact Or.inr (hepub hm)
  · exact Or.inl (hpdf hm)
  · exact Or.inr (hepub hm)
  · exact absurd rfl hne

/-- C8 witness: the first pattern matching a concrete pdf name. -/
theorem dialog_patterns_restrict_w :
    List.IsSuffix ".pdf".toList "a.pdf".toList ∨
    List.IsSuffix ".epub".toList "a.pdf".toList :=
  dialog_patterns_restrict "*.pdf" "a.pdf" (by decide) (by decide) (by decide)

/-- C8 counterexample: the dialog filter also offers "All Files (*.*)",
whose pattern matches notes.txt, a file with neither a .pdf nor an .epub
extension. -/
theorem all_files_pattern_matches_non_document :
    "*.*" ∈ filterPatterns dialog_filter ∧
    globMatch "*.*".toList "notes.txt".toList = true ∧
    ¬ List.IsSuffix ".pdf".toList "notes.txt".toList ∧
    ¬ List.IsSuffix ".epub".toList "notes.txt".toList := by
  refine ⟨by decide, by decide, by decide, by decide⟩
